import Mathlib

/-!
Shallow embedding of the temporal scalar-function set of
`src/components/tidb_query/src/rpn_expr/impl_time.rs` (tikv), together with
the pieces of the temporal value model and the evaluation-context error
policy that those functions use.  The scalar functions themselves are
translated directly from the Rust source; the collaborators that live
outside the provided source tree (the `Time` codec, `EvalContext`,
`handle_invalid_time_error`) are modelled from the specification, as noted
on each definition.
-/

namespace ImplTime

/-- Calendar date-time value (the `DateTime`/`Time` codec type).  Fields are
the decoded calendar components; the codec itself is outside the provided
source tree, so the shape is modelled from the spec's data model section. -/
structure DateTime where
  year : Nat
  month : Nat
  day : Nat
  hour : Nat
  minute : Nat
  second : Nat
  micro : Nat
deriving DecidableEq

/-- Duration (MySQL TIME) value with already-resolved components, as the
spec's data model describes: hours may exceed 23, sign is separate. -/
structure Duration where
  neg : Bool
  hours : Nat
  minutes : Nat
  secs : Nat
  subsecMicros : Nat
deriving DecidableEq

/-- Modelled from the spec: `is_zero` holds when every calendar field is
zero (the canonical zero date). -/
def DateTime.is_zero (t : DateTime) : Bool :=
  t.year == 0 && t.month == 0 && t.day == 0 && t.hour == 0 &&
    t.minute == 0 && t.second == 0 && t.micro == 0

def isLeapYear (y : Nat) : Bool :=
  (y % 4 == 0 && y % 100 != 0) || y % 400 == 0

def daysInMonth (y m : Nat) : Nat :=
  match m with
  | 1 => 31
  | 2 => if isLeapYear y then 29 else 28
  | 3 => 31
  | 4 => 30
  | 5 => 31
  | 6 => 30
  | 7 => 31
  | 8 => 31
  | 9 => 30
  | 10 => 31
  | 11 => 30
  | 12 => 31
  | _ => 0

/-- Modelled from the spec's glossary: invalid-zero is "zero date OR a value
with fields outside valid calendar ranges (e.g., day 31 of February)". -/
def DateTime.invalid_zero (t : DateTime) : Bool :=
  t.month == 0 || t.day == 0 || decide (12 < t.month) ||
    decide (daysInMonth t.year t.month < t.day)

/-- Days in the months strictly before month `m` of year `y`. -/
def daysBeforeMonth (y m : Nat) : Nat :=
  match m with
  | 0 => 0
  | k + 1 => daysBeforeMonth y k + daysInMonth y k

/-- Ordinal day within the year (1-based, leap aware): the `days()` accessor
of the temporal value model, modelled from the spec. -/
def dayOfYearNr (t : DateTime) : Nat :=
  daysBeforeMonth t.year t.month + t.day

/-- MySQL-style day ordinal of a calendar date (the count for which
0001-01-01 is day 366), modelled from the spec's day-ordinal description. -/
def calcDaynr (y m d : Nat) : Nat :=
  let delsum := 365 * y + 31 * (m - 1) + d
  let y2 := if m ≤ 2 then y - 1 else y
  let delsum2 := if m ≤ 2 then delsum else delsum - (m * 4 + 23) / 10
  let temp := ((y2 / 100 + 1) * 3) / 4
  delsum2 + y2 / 4 - temp

/-- Weekday with Monday = 0 … Sunday = 6 (`weekday().num_days_from_monday()`),
modelled from the spec's temporal value model. -/
def weekdayFromMonday (t : DateTime) : Nat :=
  (calcDaynr t.year t.month t.day + 5) % 7

/-- The canonical zero date. -/
def zeroDateTime : DateTime :=
  { year := 0, month := 0, day := 0, hour := 0, minute := 0, second := 0, micro := 0 }

def mkDate (y m d : Nat) : DateTime :=
  { year := y, month := m, day := d, hour := 0, minute := 0, second := 0, micro := 0 }

/-- Year-advance loop of the daynr-to-date conversion; fuel-bounded so it is
structurally recursive (fuel never runs out for the values reached). -/
def adjustYearLoop : Nat → Nat → Nat → Nat × Nat
  | 0, yr, doy => (yr, doy)
  | fuel + 1, yr, doy =>
    let diy := if isLeapYear yr then 366 else 365
    if diy < doy then adjustYearLoop fuel (yr + 1) (doy - diy) else (yr, doy)

/-- Month walk of the daynr-to-date conversion. -/
def monthDayLoop : Nat → Nat → Nat → Nat → Nat × Nat
  | 0, _, m, doy => (m, doy)
  | fuel + 1, y, m, doy =>
    let dim := daysInMonth y m
    if dim < doy then monthDayLoop fuel y (m + 1) (doy - dim) else (m, doy)

/-- Modelled from the spec: the day-ordinal to calendar-date conversion is
total; ordinals before year 1 (at most 365) or at/after 3,652,425 (year
10000) yield the canonical zero date, and in-range ordinals yield the
calendar date with that ordinal. -/
def getDateFromDaynr (daynr : Nat) : DateTime :=
  if daynr ≤ 365 ∨ 3652425 ≤ daynr then zeroDateTime
  else
    let year0 := daynr * 100 / 36525
    let temp := ((year0 - 1) / 100 + 1) * 3 / 4
    let doy0 := daynr - year0 * 365 - (year0 - 1) / 4 + temp
    let p := adjustYearLoop daynr year0 doy0
    let q := monthDayLoop 12 p.1 1 p.2
    mkDate p.1 q.1 q.2

/-- English month name, capitalized, `none` for month 0 or out-of-range
(the `month_name()` accessor), modelled from the spec. -/
def monthNameOf : Nat → Option String
  | 1 => some "January"
  | 2 => some "February"
  | 3 => some "March"
  | 4 => some "April"
  | 5 => some "May"
  | 6 => some "June"
  | 7 => some "July"
  | 8 => some "August"
  | 9 => some "September"
  | 10 => some "October"
  | 11 => some "November"
  | 12 => some "December"
  | _ => none

/-- Error values of this layer: the structured incorrect-datetime-value
error carrying the offending value's textual form, and the format-string
decoding failure (`Error::Encoding`).  Modelled from the spec's error
handling design. -/
inductive QError where
  | incorrectDatetimeValue (value : String)
  | encoding (msg : String)
deriving DecidableEq

/-- SqlMode flags relevant to this core, modelled from the spec's data
model: `NO_ZERO_DATE` and the strict flag. -/
structure SqlMode where
  no_zero_date : Bool
  strict_all_tables : Bool
deriving DecidableEq

/-- Modelled from the spec: the per-statement evaluation context holding
the active SqlMode, the statement-kind flag that makes strictness apply,
and the append-only warning sequence. -/
structure EvalContext where
  sql_mode : SqlMode
  in_dml_stmt : Bool
  warnings : List QError
deriving DecidableEq

/-- Whether the active SqlMode requires strict handling for the current
statement kind, modelled from the spec's Error Policy. -/
def EvalContext.strictSqlMode (ctx : EvalContext) : Bool :=
  ctx.sql_mode.strict_all_tables && ctx.in_dml_stmt

/-- Modelled from the spec's Error Policy (section 4.2): on the strict path
return a hard failure carrying the original error with the context
untouched; otherwise append one warning to the context and succeed. -/
def handle_invalid_time_error (ctx : EvalContext) (err : QError) :
    EvalContext × Except QError Unit :=
  if ctx.strictSqlMode then (ctx, .error err)
  else ({ ctx with warnings := ctx.warnings ++ [err] }, .ok ())

def padZ (w n : Nat) : String :=
  let s := toString n
  if s.length < w then String.mk (List.replicate (w - s.length) '0') ++ s else s

/-- Textual form of a DateTime used in incorrect-datetime-value errors
(the `Display` rendering), modelled from the spec. -/
def DateTime.display (t : DateTime) : String :=
  padZ 4 t.year ++ "-" ++ padZ 2 t.month ++ "-" ++ padZ 2 t.day ++ " " ++
    padZ 2 t.hour ++ ":" ++ padZ 2 t.minute ++ ":" ++ padZ 2 t.second

/-- Byte strings, as lists of byte values. -/
abbrev Bytes := List Nat

/-- UTF-8 encoding of the (ASCII) strings this layer produces. -/
def strToBytes (s : String) : Bytes :=
  s.toList.map Char.toNat

def isCont (b : Nat) : Bool :=
  128 ≤ b && b < 192

/-- Decode the first UTF-8 scalar value of a byte list, rejecting overlong
forms, surrogates and values beyond U+10FFFF (the contract of
`std::str::from_utf8`). -/
def utf8DecodeStep : Bytes → Option (Char × Bytes)
  | [] => none
  | b :: bs =>
    if b < 128 then some (Char.ofNat b, bs)
    else if b < 194 then none
    else if b < 224 then
      match bs with
      | c1 :: bs2 =>
        if isCont c1 then some (Char.ofNat ((b - 192) * 64 + (c1 - 128)), bs2)
        else none
      | _ => none
    else if b < 240 then
      match bs with
      | c1 :: c2 :: bs2 =>
        if isCont c1 && isCont c2 && (b != 224 || 160 ≤ c1) && (b != 237 || c1 < 160) then
          some (Char.ofNat ((b - 224) * 4096 + (c1 - 128) * 64 + (c2 - 128)), bs2)
        else none
      | _ => none
    else if b < 245 then
      match bs with
      | c1 :: c2 :: c3 :: bs2 =>
        if isCont c1 && isCont c2 && isCont c3 && (b != 240 || 144 ≤ c1) && (b != 244 || c1 < 144) then
          some (Char.ofNat ((b - 240) * 262144 + (c1 - 128) * 4096 + (c2 - 128) * 64 + (c3 - 128)), bs2)
        else none
      | _ => none
    else none

def utf8DecodeAux : Nat → Bytes → Option (List Char)
  | _, [] => some []
  | 0, _ :: _ => none
  | fuel + 1, bs =>
    match utf8DecodeStep bs with
    | some (c, rest) =>
      match utf8DecodeAux fuel rest with
      | some cs => some (c :: cs)
      | none => none
    | none => none

/-- `std::str::from_utf8` as a total decoder: `none` exactly when the byte
list is not valid UTF-8. -/
def utf8Decode (bs : Bytes) : Option String :=
  match utf8DecodeAux bs.length bs with
  | some cs => some (String.mk cs)
  | none => none

/-- 2^32, the modulus of the wrapping u32 arithmetic used by the week
computation and the daynr truncation. -/
def M32 : Nat := 4294967296

def wAdd (a b : Nat) : Nat := (a + b) % M32

def wSub (a b : Nat) : Nat := (a + M32 - b % M32) % M32

/-- Days in a year, on u32-wrapped year values (year 0 counted as 365, as
the daynr calculation does). -/
def daysInYearW (y : Nat) : Nat :=
  if y % 4 == 0 && (y % 100 != 0 || (y % 400 == 0 && y != 0)) then 366 else 365

/-- Modelled from the spec: the single-mode week-of-year computation shared
by all four week directives (Monday-first, week-year semantics), carried
out in wrapping u32 arithmetic so that out-of-range values such as
4294967295 pass through unclamped.  Returns (week, week-year). -/
def calcWeek (t : DateTime) : Nat × Nat :=
  let daynr := calcDaynr t.year t.month t.day
  let firstDaynr := calcDaynr t.year 1 1
  let weekday0 := (firstDaynr + 5) % 7
  let s :=
    if t.month == 1 && t.day + weekday0 ≤ 7 then
      let yr := wSub t.year 1
      let diy := daysInYearW yr
      (yr, wSub firstDaynr diy, (weekday0 + 53 * 7 - diy) % 7)
    else (t.year, firstDaynr, weekday0)
  let days :=
    if 4 ≤ s.2.2 then wSub daynr (wAdd s.2.1 (7 - s.2.2))
    else wSub daynr (wSub s.2.1 s.2.2)
  if 52 * 7 ≤ days then
    let weekday2 := (s.2.2 + daysInYearW s.1) % 7
    if weekday2 < 4 then (1, wAdd s.1 1) else (days / 7 + 1, s.1)
  else (days / 7 + 1, s.1)

def weekdayNameOf : Nat → String
  | 0 => "Monday"
  | 1 => "Tuesday"
  | 2 => "Wednesday"
  | 3 => "Thursday"
  | 4 => "Friday"
  | 5 => "Saturday"
  | 6 => "Sunday"
  | _ => ""

def ordinalSuffix (d : Nat) : String :=
  if d % 10 == 1 && d % 100 != 11 then "st"
  else if d % 10 == 2 && d % 100 != 12 then "nd"
  else if d % 10 == 3 && d % 100 != 13 then "rd"
  else "th"

def take3 (s : String) : String :=
  String.mk (s.toList.take 3)

/-- One two-character directive of the date-format mini-language, modelled
from the spec: an unrecognized directive letter is emitted literally. -/
def formatDirective (t : DateTime) (c : Char) : String :=
  let h12 := if t.hour % 12 == 0 then 12 else t.hour % 12
  match c with
  | 'b' =>
    match monthNameOf t.month with
    | some s => take3 s
    | none => ""
  | 'M' =>
    match monthNameOf t.month with
    | some s => s
    | none => ""
  | 'm' => padZ 2 t.month
  | 'c' => toString t.month
  | 'D' => toString t.day ++ ordinalSuffix t.day
  | 'd' => padZ 2 t.day
  | 'e' => toString t.day
  | 'j' => padZ 3 (dayOfYearNr t)
  | 'k' => toString t.hour
  | 'H' => padZ 2 t.hour
  | 'h' => padZ 2 h12
  | 'I' => padZ 2 h12
  | 'l' => toString h12
  | 'i' => padZ 2 t.minute
  | 'p' => if t.hour % 24 < 12 then "AM" else "PM"
  | 'r' =>
    padZ 2 h12 ++ ":" ++ padZ 2 t.minute ++ ":" ++ padZ 2 t.second ++
      (if t.hour % 24 < 12 then " AM" else " PM")
  | 'T' => padZ 2 t.hour ++ ":" ++ padZ 2 t.minute ++ ":" ++ padZ 2 t.second
  | 'S' => padZ 2 t.second
  | 's' => padZ 2 t.second
  | 'f' => padZ 6 t.micro
  | 'U' => padZ 2 (calcWeek t).1
  | 'u' => padZ 2 (calcWeek t).1
  | 'V' => padZ 2 (calcWeek t).1
  | 'v' => padZ 2 (calcWeek t).1
  | 'a' => take3 (weekdayNameOf (weekdayFromMonday t))
  | 'W' => weekdayNameOf (weekdayFromMonday t)
  | 'w' => toString ((weekdayFromMonday t + 1) % 7)
  | 'X' => padZ 4 (calcWeek t).2
  | 'x' => padZ 4 (calcWeek t).2
  | 'Y' => padZ 4 t.year
  | 'y' => padZ 2 (t.year % 100)
  | '%' => "%"
  | other => other.toString

/-- Left-to-right scan of the format string: `%` introduces a directive,
any other character is copied verbatim, a lone trailing `%` is literal. -/
def dateFormatScan (t : DateTime) : List Char → String
  | [] => ""
  | ['%'] => "%"
  | '%' :: c :: rest => formatDirective t c ++ dateFormatScan t rest
  | c :: rest => c.toString ++ dateFormatScan t rest

/-- Modelled from the spec: `DateTime::date_format` applies the
mini-language to the already-decoded layout; the mini-language itself has
no failure conditions (unrecognized directives are literal), so the result
is always a success. -/
def dateFormatImpl (t : DateTime) (layout : String) : Except QError String :=
  .ok (dateFormatScan t layout.toList)

/-- The `daynr as u32` cast of the source: truncation of a signed 64-bit
integer to its low 32 bits, i.e. the value modulo 2^32. -/
def toU32 (i : Int) : Nat :=
  (i % (4294967296 : Int)).toNat

/-- Modelled from the spec: `Time::from_days` is total — it never fails and
never warns — and maps the (already truncated) day ordinal through the
ordinal-to-date conversion. -/
def timeFromDays (ctx : EvalContext) (daynr : Nat) :
    EvalContext × Except QError DateTime :=
  (ctx, .ok (getDateFromDaynr daynr))

/-- `date_format` from `impl_time.rs`: null propagation, then the
invalid-zero check routed through the error policy, then UTF-8 decoding of
the layout (a decode failure propagates directly), then the mini-language,
whose errors are routed through the error policy. -/
def date_format (ctx : EvalContext) (t : Option DateTime) (layout : Option Bytes) :
    EvalContext × Except QError (Option Bytes) :=
  match t, layout with
  | some t, some layout =>
    if t.invalid_zero then
      let r := handle_invalid_time_error ctx (.incorrectDatetimeValue t.display)
      match r.2 with
      | .error e => (r.1, .error e)
      | .ok _ => (r.1, .ok none)
    else
      match utf8Decode layout with
      | none => (ctx, .error (.encoding ("invalid utf-8 sequence")))
      | some fmt =>
        match dateFormatImpl t fmt with
        | .error err =>
          let r := handle_invalid_time_error ctx err
          match r.2 with
          | .error e => (r.1, .error e)
          | .ok _ => (r.1, .ok none)
        | .ok s => (ctx, .ok (some (strToBytes s)))
  | _, _ => (ctx, .ok none)

/-- `week_day` from `impl_time.rs`. -/
def week_day (ctx : EvalContext) (t : Option DateTime) :
    EvalContext × Except QError (Option Int) :=
  match t with
  | none => (ctx, .ok none)
  | some t =>
    if t.invalid_zero then
      let r := handle_invalid_time_error ctx (.incorrectDatetimeValue t.display)
      match r.2 with
      | .error e => (r.1, .error e)
      | .ok _ => (r.1, .ok none)
    else (ctx, .ok (some (Int.ofNat (weekdayFromMonday t))))

/-- `day_of_year` from `impl_time.rs`. -/
def day_of_year (ctx : EvalContext) (t : Option DateTime) :
    EvalContext × Except QError (Option Int) :=
  match t with
  | none => (ctx, .ok none)
  | some t =>
    if t.invalid_zero then
      let r := handle_invalid_time_error ctx (.incorrectDatetimeValue t.display)
      match r.2 with
      | .error e => (r.1, .error e)
      | .ok _ => (r.1, .ok none)
    else (ctx, .ok (some (Int.ofNat (dayOfYearNr t))))

/-- `from_days` from `impl_time.rs`: on a present argument, cast to u32 and
convert through `Time::from_days`, propagating its (never occurring)
failures. -/
def from_days (ctx : EvalContext) (arg : Option Int) :
    EvalContext × Except QError (Option DateTime) :=
  match arg with
  | none => (ctx, .ok none)
  | some daynr =>
    let r := timeFromDays ctx (toU32 daynr)
    match r.2 with
    | .error e => (r.1, .error e)
    | .ok time => (r.1, .ok (some time))

/-- `month` from `impl_time.rs` (pure; month 0 allowed). -/
def month (t : Option DateTime) : Except QError (Option Int) :=
  match t with
  | none => .ok none
  | some time => .ok (some (Int.ofNat time.month))

/-- `hour` from `impl_time.rs` (pure). -/
def hour (t : Option Duration) : Except QError (Option Int) :=
  match t with
  | none => .ok none
  | some d => .ok (some (Int.ofNat d.hours))

/-- `minute` from `impl_time.rs` (pure). -/
def minute (t : Option Duration) : Except QError (Option Int) :=
  match t with
  | none => .ok none
  | some d => .ok (some (Int.ofNat d.minutes))

/-- `second` from `impl_time.rs` (pure). -/
def second (t : Option Duration) : Except QError (Option Int) :=
  match t with
  | none => .ok none
  | some d => .ok (some (Int.ofNat d.secs))

/-- `micro_second` from `impl_time.rs` (pure). -/
def micro_second (t : Option Duration) : Except QError (Option Int) :=
  match t with
  | none => .ok none
  | some d => .ok (some (Int.ofNat d.subsecMicros))

/-- `year` from `impl_time.rs`: zero date returns 0 unless NO_ZERO_DATE is
set, in which case it is routed through the error policy (warning path
returns the unknown marker). -/
def year (ctx : EvalContext) (t : Option DateTime) :
    EvalContext × Except QError (Option Int) :=
  match t with
  | none => (ctx, .ok none)
  | some t =>
    if t.is_zero then
      if ctx.sql_mode.no_zero_date then
        let r := handle_invalid_time_error ctx (.incorrectDatetimeValue t.display)
        match r.2 with
        | .error e => (r.1, .error e)
        | .ok _ => (r.1, .ok none)
      else (ctx, .ok (some 0))
    else (ctx, .ok (some (Int.ofNat t.year)))

/-- `day_of_month` from `impl_time.rs`: branching identical to `year`. -/
def day_of_month (ctx : EvalContext) (t : Option DateTime) :
    EvalContext × Except QError (Option Int) :=
  match t with
  | none => (ctx, .ok none)
  | some t =>
    if t.is_zero then
      if ctx.sql_mode.no_zero_date then
        let r := handle_invalid_time_error ctx (.incorrectDatetimeValue t.display)
        match r.2 with
        | .error e => (r.1, .error e)
        | .ok _ => (r.1, .ok none)
      else (ctx, .ok (some 0))
    else (ctx, .ok (some (Int.ofNat t.day)))

/-- `month_name` from `impl_time.rs`: the zero date under NO_ZERO_DATE is
routed through the error policy; otherwise the month name, which is the
unknown marker for month 0. -/
def month_name (ctx : EvalContext) (t : Option DateTime) :
    EvalContext × Except QError (Option Bytes) :=
  match t with
  | some t =>
    if t.is_zero && ctx.sql_mode.no_zero_date then
      let r := handle_invalid_time_error ctx (.incorrectDatetimeValue t.display)
      match r.2 with
      | .error e => (r.1, .error e)
      | .ok _ => (r.1, .ok none)
    else (ctx, .ok ((monthNameOf t.month).map strToBytes))
  | none => (ctx, .ok none)

/-- Lenient default context: no flags, empty warning list. -/
def defaultCtx : EvalContext :=
  { sql_mode := { no_zero_date := false, strict_all_tables := false },
    in_dml_stmt := false, warnings := [] }

/-- NO_ZERO_DATE set, strict handling not active. -/
def noZeroDateCtx : EvalContext :=
  { sql_mode := { no_zero_date := true, strict_all_tables := false },
    in_dml_stmt := false, warnings := [] }

/-- NO_ZERO_DATE and strict handling both active. -/
def strictCtx : EvalContext :=
  { sql_mode := { no_zero_date := true, strict_all_tables := true },
    in_dml_stmt := true, warnings := [] }

instance {ε α : Type} [DecidableEq ε] [DecidableEq α] : DecidableEq (Except ε α) := fun a b =>
  match a, b with
  | .ok a, .ok b =>
    if h : a = b then .isTrue (by rw [h]) else .isFalse (fun hh => h (by injection hh))
  | .error a, .error b =>
    if h : a = b then .isTrue (by rw [h]) else .isFalse (fun hh => h (by injection hh))
  | .ok _, .error _ => .isFalse (fun hh => Except.noConfusion hh)
  | .error _, .ok _ => .isFalse (fun hh => Except.noConfusion hh)

theorem from_days_some (ctx : EvalContext) (n : Int) :
    from_days ctx (some n) = (ctx, .ok (some (getDateFromDaynr (toU32 n)))) :=
  rfl

theorem getDateFromDaynr_oob (d : Nat) (h : d ≤ 365 ∨ 3652425 ≤ d) :
    getDateFromDaynr d = zeroDateTime := by
  unfold getDateFromDaynr
  rw [if_pos h]

theorem week_day_valid (ctx : EvalContext) (t : DateTime)
    (h : t.invalid_zero = false) :
    week_day ctx (some t) = (ctx, .ok (some (Int.ofNat (weekdayFromMonday t)))) := by
  simp [week_day, h]

theorem gd735000 : getDateFromDaynr 735000 = mkDate 2012 5 12 := by decide

theorem gd3652424 : getDateFromDaynr 3652424 = mkDate 9999 12 31 := by decide

theorem toU32_735000 : toU32 735000 = 735000 := by decide

theorem toU32_3652424 : toU32 3652424 = 3652424 := by decide

theorem zero_is_zero : zeroDateTime.is_zero = true := by decide

/-- C1: for every scalar function of the set (date_format, week_day,
day_of_year, from_days, month, hour, minute, second, micro_second, year,
day_of_month, month_name) and every context, an absent (NULL) argument
yields the unknown result without error, with the context — and hence its
warning sequence — unchanged and the error policy never invoked,
regardless of the SQL mode flags carried by the context. -/
theorem null_propagation_no_warning (ctx : EvalContext) (t : Option DateTime)
    (layout : Option Bytes) :
    date_format ctx none layout = (ctx, .ok none) ∧
    date_format ctx t none = (ctx, .ok none) ∧
    week_day ctx none = (ctx, .ok none) ∧
    day_of_year ctx none = (ctx, .ok none) ∧
    from_days ctx none = (ctx, .ok none) ∧
    month none = .ok none ∧
    hour none = .ok none ∧
    minute none = .ok none ∧
    second none = .ok none ∧
    micro_second none = .ok none ∧
    year ctx none = (ctx, .ok none) ∧
    day_of_month ctx none = (ctx, .ok none) ∧
    month_name ctx none = (ctx, .ok none) := by
  refine ⟨?_, ?_, rfl, rfl, rfl, rfl, rfl, rfl, rfl, rfl, rfl, rfl, rfl⟩
  · cases layout <;> rfl
  · cases t <;> rfl

/-- C2: on the zero date, `year` returns 0 and leaves the context unchanged
when NO_ZERO_DATE is not set; when NO_ZERO_DATE is set and strict handling
is not active, it returns the unknown marker and appends exactly one
warning to the context. -/
theorem year_zero_date_mode_behavior (ctx : EvalContext) :
    (ctx.sql_mode.no_zero_date = false →
      year ctx (some zeroDateTime) = (ctx, .ok (some 0))) ∧
    (ctx.sql_mode.no_zero_date = true → ctx.strictSqlMode = false →
      year ctx (some zeroDateTime) =
        ({ ctx with warnings := ctx.warnings ++ [.incorrectDatetimeValue zeroDateTime.display] },
          .ok none)) := by
  constructor
  · intro h
    simp [year, zero_is_zero, h]
  · intro h1 h2
    simp [year, zero_is_zero, h1, handle_invalid_time_error, h2]

theorem year_zero_date_mode_behavior_wit :
    year defaultCtx (some zeroDateTime) = (defaultCtx, .ok (some 0)) ∧
    year noZeroDateCtx (some zeroDateTime) =
      ({ noZeroDateCtx with warnings := [.incorrectDatetimeValue zeroDateTime.display] },
        .ok none) := by
  constructor
  · exact (year_zero_date_mode_behavior defaultCtx).1 rfl
  · have h := (year_zero_date_mode_behavior noZeroDateCtx).2 rfl rfl
    simpa [noZeroDateCtx] using h

/-- C3 counterexample: with NO_ZERO_DATE set and strict handling not
active, `year` on the zero date does not return 0 — its value result is
the unknown marker, which differs from 0. -/
theorem year_warning_path_cx :
    (year noZeroDateCtx (some zeroDateTime)).2 = .ok none ∧
    (Except.ok (none : Option Int) : Except QError (Option Int)) ≠ .ok (some 0) := by
  constructor
  · decide
  · decide

/-- C3 (amended): for `year` on an `is_zero` DateTime in a context with
NO_ZERO_DATE set where the error policy takes the warning (non-strict)
path, the function returns the unknown marker (not 0) and appends one
warning. -/
theorem year_warning_path_returns_none (ctx : EvalContext) (t : DateTime)
    (h1 : t.is_zero = true) (h2 : ctx.sql_mode.no_zero_date = true)
    (h3 : ctx.strictSqlMode = false) :
    year ctx (some t) =
      ({ ctx with warnings := ctx.warnings ++ [.incorrectDatetimeValue t.display] },
        .ok none) := by
  simp [year, h1, h2, handle_invalid_time_error, h3]

theorem year_warning_path_returns_none_wit :
    year noZeroDateCtx (some zeroDateTime) =
      ({ noZeroDateCtx with warnings := [.incorrectDatetimeValue zeroDateTime.display] },
        .ok none) := by
  have h := year_warning_path_returns_none noZeroDateCtx zeroDateTime (by decide) rfl rfl
  simpa [noZeroDateCtx] using h

/-- C4: `from_days` is total over non-null integer inputs (it always
produces a date, never a failure, with the context unchanged); day
ordinals below 366 or at/above 3,652,425 yield the canonical zero date;
`from_days 735000` yields 2012-05-12 and `from_days 3652424` yields
9999-12-31. -/
theorem from_days_total_and_vectors :
    (∀ (ctx : EvalContext) (n : Int), ∃ t : DateTime,
        from_days ctx (some n) = (ctx, .ok (some t))) ∧
    (∀ (ctx : EvalContext) (d : Nat), d < 4294967296 → d < 366 ∨ 3652425 ≤ d →
        from_days ctx (some (d : Int)) = (ctx, .ok (some zeroDateTime))) ∧
    (∀ ctx : EvalContext,
        from_days ctx (some 735000) = (ctx, .ok (some (mkDate 2012 5 12)))) ∧
    (∀ ctx : EvalContext,
        from_days ctx (some 3652424) = (ctx, .ok (some (mkDate 9999 12 31)))) := by
  refine ⟨fun ctx n => ⟨getDateFromDaynr (toU32 n), rfl⟩, ?_, ?_, ?_⟩
  · intro ctx d hlt hcond
    rw [from_days_some]
    have hd : toU32 (d : Int) = d := by
      unfold toU32
      have h : (d : Int) % (4294967296 : Int) = d := by omega
      rw [h]
      exact Int.toNat_natCast d
    have hz : getDateFromDaynr d = zeroDateTime := by
      rcases hcond with h | h
      · exact getDateFromDaynr_oob d (Or.inl (by omega))
      · exact getDateFromDaynr_oob d (Or.inr h)
    rw [hd, hz]
  · intro ctx
    rw [from_days_some, toU32_735000, gd735000]
  · intro ctx
    rw [from_days_some, toU32_3652424, gd3652424]

theorem from_days_total_and_vectors_wit :
    from_days defaultCtx (some ((100 : Nat) : Int)) = (defaultCtx, .ok (some zeroDateTime)) ∧
    from_days defaultCtx (some ((4000000 : Nat) : Int)) = (defaultCtx, .ok (some zeroDateTime)) :=
  ⟨from_days_total_and_vectors.2.1 defaultCtx 100 (by norm_num) (Or.inl (by norm_num)),
   from_days_total_and_vectors.2.1 defaultCtx 4000000 (by norm_num) (Or.inr (by norm_num))⟩

/-- C5: `month_name` maps each DateTime with month m in 1..12 to the
correct capitalized English month name as bytes in every context; for a
date with month 0 that does not trigger the zero-date check (month 0 with
is_zero false, or NO_ZERO_DATE unset) it returns the unknown marker with
the context unchanged; for an is_zero date under NO_ZERO_DATE on the
non-strict path it returns the unknown marker and appends one warning. -/
theorem month_name_cases :
    (∀ (ctx : EvalContext) (t : DateTime),
      (t.month = 1 → month_name ctx (some t) = (ctx, .ok (some (strToBytes ("January"))))) ∧
      (t.month = 2 → month_name ctx (some t) = (ctx, .ok (some (strToBytes ("February"))))) ∧
      (t.month = 3 → month_name ctx (some t) = (ctx, .ok (some (strToBytes ("March"))))) ∧
      (t.month = 4 → month_name ctx (some t) = (ctx, .ok (some (strToBytes ("April"))))) ∧
      (t.month = 5 → month_name ctx (some t) = (ctx, .ok (some (strToBytes ("May"))))) ∧
      (t.month = 6 → month_name ctx (some t) = (ctx, .ok (some (strToBytes ("June"))))) ∧
      (t.month = 7 → month_name ctx (some t) = (ctx, .ok (some (strToBytes ("July"))))) ∧
      (t.month = 8 → month_name ctx (some t) = (ctx, .ok (some (strToBytes ("August"))))) ∧
      (t.month = 9 → month_name ctx (some t) = (ctx, .ok (some (strToBytes ("September"))))) ∧
      (t.month = 10 → month_name ctx (some t) = (ctx, .ok (some (strToBytes ("October"))))) ∧
      (t.month = 11 → month_name ctx (some t) = (ctx, .ok (some (strToBytes ("November"))))) ∧
      (t.month = 12 → month_name ctx (some t) = (ctx, .ok (some (strToBytes ("December")))))) ∧
    (∀ (ctx : EvalContext) (t : DateTime), t.month = 0 →
      t.is_zero = false ∨ ctx.sql_mode.no_zero_date = false →
      month_name ctx (some t) = (ctx, .ok none)) ∧
    (∀ (ctx : EvalContext) (t : DateTime), t.is_zero = true →
      ctx.sql_mode.no_zero_date = true → ctx.strictSqlMode = false →
      month_name ctx (some t) =
        ({ ctx with warnings := ctx.warnings ++ [.incorrectDatetimeValue t.display] },
          .ok none)) := by
  refine ⟨?_, ?_, ?_⟩
  · intro ctx t
    have step : ∀ m : Nat, t.month = m → m ≠ 0 →
        month_name ctx (some t) = (ctx, .ok ((monthNameOf m).map strToBytes)) := by
      intro m hm hm0
      have hz : t.is_zero = false := by
        simp [DateTime.is_zero, hm, hm0]
      simp [month_name, hz, hm]
    exact ⟨fun h => step 1 h (by norm_num), fun h => step 2 h (by norm_num),
      fun h => step 3 h (by norm_num), fun h => step 4 h (by norm_num),
      fun h => step 5 h (by norm_num), fun h => step 6 h (by norm_num),
      fun h => step 7 h (by norm_num), fun h => step 8 h (by norm_num),
      fun h => step 9 h (by norm_num), fun h => step 10 h (by norm_num),
      fun h => step 11 h (by norm_num), fun h => step 12 h (by norm_num)⟩
  · intro ctx t hm hc
    rcases hc with hz | hnz
    · simp [month_name, hz, hm, monthNameOf]
    · simp [month_name, hnz, hm, monthNameOf]
  · intro ctx t h1 h2 h3
    simp [month_name, h1, h2, handle_invalid_time_error, h3]

theorem month_name_cases_wit :
    month_name defaultCtx (some (mkDate 2019 1 1)) =
      (defaultCtx, .ok (some (strToBytes ("January")))) ∧
    month_name defaultCtx (some (mkDate 2019 0 1)) = (defaultCtx, .ok none) ∧
    month_name noZeroDateCtx (some zeroDateTime) =
      ({ noZeroDateCtx with warnings := [.incorrectDatetimeValue zeroDateTime.display] },
        .ok none) := by
  refine ⟨?_, ?_, ?_⟩
  · exact ((month_name_cases.1 defaultCtx (mkDate 2019 1 1)).1) rfl
  · exact month_name_cases.2.1 defaultCtx (mkDate 2019 0 1) rfl (Or.inl (by decide))
  · have h := month_name_cases.2.2 noZeroDateCtx zeroDateTime (by decide) rfl rfl
    simpa [noZeroDateCtx] using h

/-- C6: with NO_ZERO_DATE and strict handling active, `month_name` on a
zero-valued date propagates a hard failure carrying the
incorrect-datetime-value error, and the context's warning sequence is
unchanged (zero warnings appended). -/
theorem month_name_strict_escalation (ctx : EvalContext) (t : DateTime)
    (h1 : t.is_zero = true) (h2 : ctx.sql_mode.no_zero_date = true)
    (h3 : ctx.strictSqlMode = true) :
    month_name ctx (some t) = (ctx, .error (.incorrectDatetimeValue t.display)) ∧
    (month_name ctx (some t)).1.warnings = ctx.warnings := by
  have h : month_name ctx (some t) = (ctx, .error (.incorrectDatetimeValue t.display)) := by
    simp [month_name, h1, h2, handle_invalid_time_error, h3]
  exact ⟨h, by rw [h]⟩

theorem month_name_strict_escalation_wit :
    month_name strictCtx (some zeroDateTime) =
      (strictCtx, .error (.incorrectDatetimeValue zeroDateTime.display)) ∧
    (month_name strictCtx (some zeroDateTime)).1.warnings = strictCtx.warnings :=
  month_name_strict_escalation strictCtx zeroDateTime (by decide) rfl rfl

/-- C7: `week_day` maps 2018-12-03 through 2018-12-09 to 0 (Monday)
through 6 (Sunday) in every context, and on every invalid-zero DateTime
under a non-strict (default) mode it takes the error policy's warning
path: it returns the unknown marker and appends one warning. -/
theorem week_day_vectors_and_invalid :
    (∀ ctx : EvalContext,
      week_day ctx (some (mkDate 2018 12 3)) = (ctx, .ok (some 0)) ∧
      week_day ctx (some (mkDate 2018 12 4)) = (ctx, .ok (some 1)) ∧
      week_day ctx (some (mkDate 2018 12 5)) = (ctx, .ok (some 2)) ∧
      week_day ctx (some (mkDate 2018 12 6)) = (ctx, .ok (some 3)) ∧
      week_day ctx (some (mkDate 2018 12 7)) = (ctx, .ok (some 4)) ∧
      week_day ctx (some (mkDate 2018 12 8)) = (ctx, .ok (some 5)) ∧
      week_day ctx (some (mkDate 2018 12 9)) = (ctx, .ok (some 6))) ∧
    (∀ (ctx : EvalContext) (t : DateTime), t.invalid_zero = true →
      ctx.strictSqlMode = false →
      week_day ctx (some t) =
        ({ ctx with warnings := ctx.warnings ++ [.incorrectDatetimeValue t.display] },
          .ok none)) := by
  constructor
  · intro ctx
    refine ⟨?_, ?_, ?_, ?_, ?_, ?_, ?_⟩
    · rw [week_day_valid ctx (mkDate 2018 12 3) (by decide),
        show weekdayFromMonday (mkDate 2018 12 3) = 0 from by decide]
      rfl
    · rw [week_day_valid ctx (mkDate 2018 12 4) (by decide),
        show weekdayFromMonday (mkDate 2018 12 4) = 1 from by decide]
      rfl
    · rw [week_day_valid ctx (mkDate 2018 12 5) (by decide),
        show weekdayFromMonday (mkDate 2018 12 5) = 2 from by decide]
      rfl
    · rw [week_day_valid ctx (mkDate 2018 12 6) (by decide),
        show weekdayFromMonday (mkDate 2018 12 6) = 3 from by decide]
      rfl
    · rw [week_day_valid ctx (mkDate 2018 12 7) (by decide),
        show weekdayFromMonday (mkDate 2018 12 7) = 4 from by decide]
      rfl
    · rw [week_day_valid ctx (mkDate 2018 12 8) (by decide),
        show weekdayFromMonday (mkDate 2018 12 8) = 5 from by decide]
      rfl
    · rw [week_day_valid ctx (mkDate 2018 12 9) (by decide),
        show weekdayFromMonday (mkDate 2018 12 9) = 6 from by decide]
      rfl
  · intro ctx t h1 h2
    simp [week_day, h1, handle_invalid_time_error, h2]

theorem week_day_vectors_and_invalid_wit :
    week_day defaultCtx (some (mkDate 2018 12 0)) =
      ({ defaultCtx with warnings := [.incorrectDatetimeValue (mkDate 2018 12 0).display] },
        .ok none) := by
  have h := week_day_vectors_and_invalid.2 defaultCtx (mkDate 2018 12 0) (by decide) rfl
  simpa [defaultCtx] using h

/-- C8: on every `is_zero` DateTime and in every context, `day_of_month`
returns exactly what `year` returns — same value, same failure, and same
effect on the warning sequence. -/
theorem day_of_month_matches_year_on_zero (ctx : EvalContext) (t : DateTime)
    (h : t.is_zero = true) :
    day_of_month ctx (some t) = year ctx (some t) := by
  simp [day_of_month, year, h]

theorem day_of_month_matches_year_on_zero_wit :
    day_of_month noZeroDateCtx (some zeroDateTime) = year noZeroDateCtx (some zeroDateTime) :=
  day_of_month_matches_year_on_zero noZeroDateCtx zeroDateTime (by decide)

/-- C9 counterexample: with the datetime argument an invalid-zero value
(month 0) and the default lenient mode, `date_format` on an undecodable
format string does not propagate a hard failure — the invalid-zero check
runs first, appends a warning, and the function returns the unknown
marker, so the decode failure claim does not hold for every input. -/
theorem date_format_decode_shortcircuit_cx :
    utf8Decode [255] = none ∧
    date_format defaultCtx (some (mkDate 2018 0 3)) (some [255]) =
      ({ defaultCtx with warnings := [.incorrectDatetimeValue (mkDate 2018 0 3).display] },
        .ok none) := by
  constructor
  · rfl
  · decide

/-- C9 (amended): whenever the datetime argument is present and not
invalid-zero (so the format string is actually decoded), a format-string
argument that is not valid UTF-8 makes `date_format` propagate a hard
decoding failure in every SQL mode, with the context unchanged — the
failure is never routed through the error policy and never downgraded to
a warning plus unknown.  (When the datetime is absent or invalid-zero on
the lenient path, the format string is never decoded.) -/
theorem date_format_decode_hard_failure (ctx : EvalContext) (t : DateTime)
    (layout : Bytes) (h1 : t.invalid_zero = false) (h2 : utf8Decode layout = none) :
    date_format ctx (some t) (some layout) =
      (ctx, .error (.encoding ("invalid utf-8 sequence"))) := by
  simp [date_format, h1, h2]

theorem date_format_decode_hard_failure_wit :
    date_format strictCtx (some (mkDate 2012 12 21)) (some [255]) =
      (strictCtx, .error (.encoding ("invalid utf-8 sequence"))) :=
  date_format_decode_hard_failure strictCtx (mkDate 2012 12 21) [255] (by decide) rfl

/-- C10 counterexample: not every negative input to `from_days` yields the
canonical zero date: the negative input 3652424 - 2^32 truncates to the
in-range ordinal 3652424 and yields 9999-12-31, which is not the zero
date. -/
theorem from_days_negative_cx :
    from_days defaultCtx (some (-4291314872)) =
      (defaultCtx, .ok (some (mkDate 9999 12 31))) ∧
    mkDate 9999 12 31 ≠ zeroDateTime := by
  constructor
  · decide
  · decide

/-- C10 (amended): `from_days` truncates its signed 64-bit argument to its
low 32 bits (modulo 2^32): an input of 2^32 + n behaves exactly like n,
and a negative input n wraps to the ordinal 2^32 + n, so the negative
inputs strictly above 3652425 - 2^32 (such as -140) land in the
out-of-range region and yield the canonical zero date, while more
negative inputs can wrap into the valid ordinal range. -/
theorem from_days_truncation_behavior (ctx : EvalContext) (n : Int) :
    from_days ctx (some (n + 4294967296)) = from_days ctx (some n) ∧
    (-4291314871 ≤ n → n < 0 → from_days ctx (some n) = (ctx, .ok (some zeroDateTime))) ∧
    from_days ctx (some (-140)) = (ctx, .ok (some zeroDateTime)) := by
  refine ⟨?_, ?_, ?_⟩
  · rw [from_days_some, from_days_some]
    have h : toU32 (n + 4294967296) = toU32 n := by
      unfold toU32
      congr 1
      omega
    rw [h]
  · intro hl hu
    rw [from_days_some]
    have h32 : 3652425 ≤ toU32 n := by
      unfold toU32
      have h : n % (4294967296 : Int) = n + 4294967296 := by omega
      rw [h]
      omega
    rw [getDateFromDaynr_oob _ (Or.inr h32)]
  · rw [from_days_some]
    have h : toU32 (-140) = 4294967156 := by decide
    rw [h, getDateFromDaynr_oob _ (Or.inr (by norm_num))]

theorem from_days_truncation_behavior_wit :
    from_days defaultCtx (some (-140)) = (defaultCtx, .ok (some zeroDateTime)) :=
  (from_days_truncation_behavior defaultCtx (-140)).2.1 (by norm_num) (by norm_num)

end ImplTime
